import Mathlib

/-!
Verification of the pagination / response-classification core of the
scrypyfall client library (`scrypyfall/foundation.py`), as a shallow
embedding in Lean 4.

The embedding mirrors the source:
* `Payload` models a decoded JSON object (a Python dict) through the fields
  the library actually reads (`object`, `data`, `has_more`, `next_page`,
  `total_cards`, `total`, `total_values`, `not_found`, `uri`, `details`).
  Elements of a `data` array are themselves JSON objects, hence the nested
  `List Payload`.
* `ScrypyfallList.init`, `ScrypyfallCollection.init`, `ScrypyfallCatalog.init`
  model the corresponding `__init__` constructors.
* `make_request` models `ScrypyfallFoundation.make_request` from the point
  where the transport has produced a response: the network is an oracle
  (`Resp`), and Python exceptions become the `Err` sum.
* `IterState`, `get_data_page`, `load`, `getitem`, `nextf` model the state
  and methods of `ScrypyfallIterableFoundation`; the unbounded Python
  `while` loops are given explicit fuel, with a dedicated `fuelOut`
  outcome, so that non-termination of the source is expressible as
  "for every fuel, the run is still `fuelOut`".
-/

namespace Scrypyfall

/-- A decoded JSON object (Python dict), restricted to the keys the library
reads.  `Option` distinguishes an absent key from a present one; `data` and
`not_found` are modelled by plain lists because the source only ever reads
them with `obj.get(key, [])`, which cannot distinguish absence from `[]`. -/
inductive Payload where
  | mk : (object : Option String) → (data : List Payload) →
      (has_more : Option Bool) → (next_page : Option String) →
      (total_cards : Option Nat) → (total : Option Nat) →
      (total_values : Option Nat) → (not_found : List Payload) →
      (uri : Option String) → (details : Option String) → Payload

/-- The value of the `object` key, when present. -/
def Payload.object : Payload → Option String
  | .mk o _ _ _ _ _ _ _ _ _ => o

/-- The value of the `data` key (`obj.get('data', [])`). -/
def Payload.data : Payload → List Payload
  | .mk _ d _ _ _ _ _ _ _ _ => d

/-- The value of the `has_more` key, when present. -/
def Payload.has_more : Payload → Option Bool
  | .mk _ _ h _ _ _ _ _ _ _ => h

/-- The value of the `next_page` key, when present. -/
def Payload.next_page : Payload → Option String
  | .mk _ _ _ n _ _ _ _ _ _ => n

/-- The value of the `total_cards` key, when present. -/
def Payload.total_cards : Payload → Option Nat
  | .mk _ _ _ _ t _ _ _ _ _ => t

/-- The value of the `total` key, when present. -/
def Payload.total : Payload → Option Nat
  | .mk _ _ _ _ _ t _ _ _ _ => t

/-- The value of the `total_values` key, when present. -/
def Payload.total_values : Payload → Option Nat
  | .mk _ _ _ _ _ _ t _ _ _ => t

/-- The value of the `not_found` key (`obj.get('not_found', [])`). -/
def Payload.not_found : Payload → List Payload
  | .mk _ _ _ _ _ _ _ n _ _ => n

/-- The value of the `uri` key, when present. -/
def Payload.uri : Payload → Option String
  | .mk _ _ _ _ _ _ _ _ u _ => u

/-- The value of the `details` key, when present. -/
def Payload.details : Payload → Option String
  | .mk _ _ _ _ _ _ _ _ _ d => d

/-- An opaque data element, distinguished by a tag stored in its `total`
field; stands for the card/set objects carried inside `data` arrays. -/
def atomP (n : Nat) : Payload :=
  Payload.mk none [] none none none (some n) none [] none none

/-- Characters strictly after the first occurrence of `c`, or `none` when
`c` does not occur. -/
def afterChar (c : Char) : List Char → Option (List Char)
  | [] => none
  | x :: xs => if x = c then some xs else afterChar c xs

/-- Characters strictly before the first occurrence of `c` (the whole list
when `c` does not occur). -/
def beforeChar (c : Char) : List Char → List Char
  | [] => []
  | x :: xs => if x = c then [] else x :: beforeChar c xs

/-- Splits on every occurrence of `c`, keeping empty chunks. -/
def splitOnChar (c : Char) : List Char → List (List Char)
  | [] => [[]]
  | x :: xs =>
    match splitOnChar c xs, x == c with
    | r, true => [] :: r
    | [], false => [[x]]
    | y :: ys, false => (x :: y) :: ys

/-- Modelled from Python's `urllib.parse.urlsplit(url).query` for the
fragment-free URLs the library handles: the characters after the first
`?` and before any later `#`. -/
def urlQuery (url : String) : List Char :=
  match afterChar '?' url.toList with
  | none => []
  | some rest => beforeChar '#' rest

/-- Modelled from Python's `urllib.parse.parse_qs`: key/value pairs of a
query string, in order, skipping chunks with no `=` and blank values
(`keep_blank_values` defaults to `False`). -/
def qsPairs (q : List Char) : List (List Char × List Char) :=
  (splitOnChar '&' q).filterMap fun pair =>
    match afterChar '=' pair with
    | none => none
    | some v => if v = [] then none else some (beforeChar '=' pair, v)

/-- First value recorded for `key`, as `parse_qs(...)[key][0]` returns. -/
def firstParam (key : List Char) : List (List Char × List Char) → Option (List Char)
  | [] => none
  | (k, v) :: rest => if k = key then some v else firstParam key rest

/-- Numeric value of a decimal digit. -/
def digitVal (c : Char) : Option Nat :=
  if '0' ≤ c ∧ c ≤ '9' then some (c.toNat - '0'.toNat) else none

/-- Accumulator pass over decimal digits; fails on a non-digit. -/
def parseNatAux : List Char → Nat → Option Nat
  | [], acc => some acc
  | c :: cs, acc =>
    match digitVal c with
    | some d => parseNatAux cs (acc * 10 + d)
    | none => none

/-- A non-empty all-digit sequence as a natural number. -/
def parseDigits : List Char → Option Nat
  | [] => none
  | cs => parseNatAux cs 0

/-- Modelled from Python's `int()` on the decimal literals that occur as
`page` query parameters: an optional sign followed by digits. -/
def pyInt : List Char → Option Int
  | '-' :: rest => (parseDigits rest).map (fun n => -(n : Int))
  | '+' :: rest => (parseDigits rest).map (fun n => (n : Int))
  | cs => (parseDigits cs).map (fun n => (n : Int))

/-- Python truthiness of `obj.get('next_page')`: present and non-empty. -/
def truthyStr : Option String → Bool
  | none => false
  | some s => !(s == "")

/-- The characters of the query-parameter name `page`. -/
def pageKey : List Char := ['p', 'a', 'g', 'e']

/-- Python exceptions of the modelled paths. -/
inductive Err where
  | runtimeError : Err
  | apiError : (body : Payload) → (details : String) → Err
  | keyError : Err
  | valueError : Err
  | noResponse : Err

/-- The parsed `ScrypyfallList` (fields set by `ScrypyfallList.__init__`). -/
structure SList where
  data : List Payload
  not_found : List Payload
  has_more : Bool
  total : Option Nat
  next_page : Option Int
  next_page_url : Option String

/-- The parsed `ScrypyfallCollection`. -/
structure SCollection where
  data : List Payload
  total_values : Nat

/-- The parsed `ScrypyfallCatalog`. -/
structure SCatalog where
  data : List Payload
  total_values : Nat
  uri : Option String

/-- `ScrypyfallList.__init__`: rejects a non-list object; takes `data`,
`not_found`, `has_more` (default `False`) from the payload; `total` from
`total_cards`, else `total`, else leaves it unknown; and when `has_more`
is truthy together with a truthy `next_page` URL, extracts the `page`
query parameter of that URL as an integer (raising `KeyError` when the
parameter is absent and `ValueError` when it is not an integer). -/
def ScrypyfallList.init (obj : Payload) : Except Err SList :=
  if obj.object = some "list" then
    let hm := (obj.has_more).getD false
    let tot := obj.total_cards <|> obj.total
    if hm && truthyStr obj.next_page then
      match obj.next_page with
      | none => Except.error Err.keyError
      | some url =>
        match firstParam pageKey (qsPairs (urlQuery url)) with
        | none => Except.error Err.keyError
        | some v =>
          match pyInt v with
          | none => Except.error Err.valueError
          | some n =>
            Except.ok ⟨obj.data, obj.not_found, hm, tot, some n, some url⟩
    else
      Except.ok ⟨obj.data, obj.not_found, hm, tot, none, none⟩
  else
    Except.error Err.runtimeError

/-- `ScrypyfallCollection.__init__`: rejects a non-collection object;
takes `data` and `total_values` (default `0`). -/
def ScrypyfallCollection.init (obj : Payload) : Except Err SCollection :=
  if obj.object = some "collection" then
    Except.ok ⟨obj.data, (obj.total_values).getD 0⟩
  else
    Except.error Err.runtimeError

/-- `ScrypyfallCatalog.__init__`: rejects a non-catalog object; takes
`data`, `total_values` (default `0`) and `uri`. -/
def ScrypyfallCatalog.init (obj : Payload) : Except Err SCatalog :=
  if obj.object = some "catalog" then
    Except.ok ⟨obj.data, (obj.total_values).getD 0, obj.uri⟩
  else
    Except.error Err.runtimeError

/-- A raw transport response: either a body that is not valid JSON, or a
status code together with the decoded JSON body. -/
inductive Resp where
  | notJson : Resp
  | json : (status : Nat) → (body : Payload) → Resp

/-- The classified result of `make_request` (`isinstance` dispatch targets
of `_get_data_page`). -/
inductive Envelope where
  | list : SList → Envelope
  | collection : SCollection → Envelope
  | catalog : SCatalog → Envelope
  | single : Payload → Envelope

/-- `ScrypyfallFoundation.make_request`, from the point where the transport
has answered.  A body that is not valid JSON raises `RuntimeError`; a
non-200 status raises `ScrypyfallException(jresp, jresp.get('details', ...))`
carrying the decoded body verbatim; otherwise `jresp['object']` (a plain
dict subscript: `KeyError` when absent) selects the wrapper class, and any
unrecognized value returns the payload itself. -/
def make_request (r : Resp) : Except Err Envelope :=
  match r with
  | .notJson => Except.error Err.runtimeError
  | .json status body =>
    if status ≠ 200 then
      Except.error (Err.apiError body
        ((body.details).getD "Error in calling Scryfall API"))
    else
      match body.object with
      | none => Except.error Err.keyError
      | some o =>
        if o = "list" then (ScrypyfallList.init body).map Envelope.list
        else if o = "collection" then
          (ScrypyfallCollection.init body).map Envelope.collection
        else if o = "catalog" then
          (ScrypyfallCatalog.init body).map Envelope.catalog
        else Except.ok (Envelope.single body)

/-- The mutable state of a `ScrypyfallIterableFoundation`. -/
structure IterState where
  data : List Payload
  has_more : Bool
  total : Option Nat
  next_page_url : Option String
  iter_index : Nat

/-- The state set up by `ScrypyfallIterableFoundation.__init__`. -/
def initState : IterState :=
  IterState.mk [] false none none 0

/-- The assignment block at the end of `_get_data_page`, followed by its
closing rule: a `ScrypyfallList` appends `data` and overwrites `has_more`,
`_next_page_url` and `total`; a `ScrypyfallCollection` appends `data` and
overwrites `total` with `total_values`; a `ScrypyfallCatalog` replaces
`data` and overwrites `total` with `total_values`; anything else replaces
`data` with the single payload and clears `has_more`.  Finally, when
`total` is `None` and `has_more` is `False`, `total` becomes `len(data)`. -/
def mergeEnvelope (s : IterState) (e : Envelope) : IterState :=
  let s2 :=
    match e with
    | .list l =>
      { s with data := s.data ++ l.data, has_more := l.has_more,
               next_page_url := l.next_page_url, total := l.total }
    | .collection c =>
      { s with data := s.data ++ c.data, total := some c.total_values }
    | .catalog c =>
      { s with data := c.data, total := some c.total_values }
    | .single p =>
      { s with data := [p], has_more := false }
  if s2.total = none ∧ s2.has_more = false then
    { s2 with total := some s2.data.length }
  else s2

/-- `ScrypyfallIterableFoundation._get_data_page`.  Returns the new state,
the remaining oracle, and whether a network request was performed.  The
method returns immediately when `_next_page_url is None` while `data` is
non-empty; otherwise it performs one request (consuming the head of the
oracle; `Err.noResponse` is a model artifact for an exhausted oracle) and
merges the classified envelope.  A raised exception propagates and leaves
the state untouched. -/
def get_data_page (s : IterState) (net : List Resp) :
    Except Err (IterState × List Resp × Bool) :=
  if s.next_page_url = none ∧ 0 < s.data.length then
    Except.ok (s, net, false)
  else
    match net with
    | [] => Except.error Err.noResponse
    | r :: rest =>
      match make_request r with
      | .error e => Except.error e
      | .ok env => Except.ok (mergeEnvelope s env, rest, true)

/-- Outcome of a fuelled run of a loop of `_get_data_page` calls. -/
inductive LoadOut where
  | done : IterState → List Resp → LoadOut
  | fuelOut : IterState → List Resp → LoadOut
  | err : Err → LoadOut

/-- The `while self.has_more` loop of `ScrypyfallIterableFoundation.load`,
with explicit fuel: `done` is a genuine exit of the loop, `fuelOut` means
the fuel ran out with the loop still running. -/
def loadLoop : Nat → IterState → List Resp → LoadOut
  | 0, s, net => if s.has_more then LoadOut.fuelOut s net else LoadOut.done s net
  | fuel + 1, s, net =>
    if s.has_more then
      match get_data_page s net with
      | .error e => LoadOut.err e
      | .ok (s2, net2, _) => loadLoop fuel s2 net2
    else LoadOut.done s net

/-- `ScrypyfallIterableFoundation.load`: when no cursor is held and no data
is accumulated, sets `has_more = True`, then runs the `while self.has_more`
loop. -/
def load (fuel : Nat) (s : IterState) (net : List Resp) : LoadOut :=
  let s1 :=
    if s.next_page_url = none ∧ s.data.length = 0 then { s with has_more := true }
    else s
  loadLoop fuel s1 net

/-- Python indexing `xs[i]` on a list, including negative indices:
`xs[i] = xs[len(xs) + i]` for `-len(xs) <= i <= -1`; `none` models the
`IndexError` cases. -/
def pyGet (xs : List Payload) (i : Int) : Option Payload :=
  if 0 ≤ i then xs.get? i.toNat
  else if (-i).toNat ≤ xs.length then xs.get? (xs.length - (-i).toNat)
  else none

/-- The guard of `__getitem__`'s fetch-ahead branch:
`key >= len(self.data) and self.has_more is True and self.total is not
None and key < self.total`. -/
def fetchCond (s : IterState) (key : Int) : Bool :=
  ((s.data.length : Int) ≤ key) && s.has_more &&
    (match s.total with
     | some t => decide (key < (t : Int))
     | none => false)

/-- Outcome of a fuelled run of `__getitem__`'s `while` loop. -/
inductive LoopOut where
  | ok : IterState → List Resp → LoopOut
  | fuelOut : IterState → List Resp → LoopOut
  | err : Err → LoopOut

/-- The `while key >= len(self.data)` loop of `__getitem__`, with fuel. -/
def fetchLoop : Nat → Int → IterState → List Resp → LoopOut
  | 0, key, s, net =>
    if (s.data.length : Int) ≤ key then LoopOut.fuelOut s net else LoopOut.ok s net
  | fuel + 1, key, s, net =>
    if (s.data.length : Int) ≤ key then
      match get_data_page s net with
      | .error e => LoopOut.err e
      | .ok (s2, net2, _) => fetchLoop fuel key s2 net2
    else LoopOut.ok s net

/-- Outcome of `__getitem__` with an integer key. -/
inductive GetOut where
  | ok : Payload → IterState → List Resp → GetOut
  | idxError : IterState → List Resp → GetOut
  | fuelOut : IterState → List Resp → GetOut
  | err : Err → GetOut

/-- `ScrypyfallIterableFoundation.__getitem__` for an integer key: when the
fetch-ahead guard holds, run the fetch loop, then index `self.data` with
Python semantics (`IndexError` out of range). -/
def getitem (fuel : Nat) (key : Int) (s : IterState) (net : List Resp) : GetOut :=
  if fetchCond s key then
    match fetchLoop fuel key s net with
    | .err e => GetOut.err e
    | .fuelOut s2 net2 => GetOut.fuelOut s2 net2
    | .ok s2 net2 =>
      match pyGet s2.data key with
      | some v => GetOut.ok v s2 net2
      | none => GetOut.idxError s2 net2
  else
    match pyGet s.data key with
    | some v => GetOut.ok v s net
    | none => GetOut.idxError s net

/-- `ScrypyfallIterableFoundation.__next__`: return `data[_iter_index]` and
advance the index when in range; otherwise, when `has_more is True`, make
exactly one `_get_data_page` attempt and retry the index; otherwise raise
`StopIteration` (modelled as `none`). -/
def nextf (s : IterState) (net : List Resp) :
    Except Err (Option Payload × IterState × List Resp) :=
  if s.iter_index < s.data.length then
    Except.ok (s.data.get? s.iter_index,
      { s with iter_index := s.iter_index + 1 }, net)
  else if s.has_more then
    match get_data_page s net with
    | .error e => Except.error e
    | .ok (s2, net2, _) =>
      if s2.iter_index < s2.data.length then
        Except.ok (s2.data.get? s2.iter_index,
          { s2 with iter_index := s2.iter_index + 1 }, net2)
      else Except.ok (none, s2, net2)
  else Except.ok (none, s, net)

/-- `k + 1` successive `__next__` calls, returning the last yield. -/
def iterN : Nat → IterState → List Resp → Except Err (Option Payload × IterState × List Resp)
  | 0, s, net => nextf s net
  | k + 1, s, net =>
    match nextf s net with
    | .error e => Except.error e
    | .ok (_, s2, net2) => iterN k s2 net2

/-- Iterating to position `k`: `__iter__` resets `_iter_index` to `0`, then
`__next__` runs `k + 1` times. -/
def iterGet (k : Nat) (s : IterState) (net : List Resp) :
    Except Err (Option Payload × IterState × List Resp) :=
  iterN k { s with iter_index := 0 } net

/-- `CardsSearch.__init__` after parameter handling: with
`settings.lazy_loading` `False` it calls `self.load(...)` before returning;
otherwise it performs a single `_get_data_page`.  `done` marks the
constructor returning control to the caller. -/
def cardsSearchInit (lazyLoading : Bool) (fuel : Nat) (net : List Resp) : LoadOut :=
  if lazyLoading then
    match get_data_page initState net with
    | .error e => LoadOut.err e
    | .ok (s, net2, _) => LoadOut.done s net2
  else
    load fuel initState net


/-- The round-trip payload of the spec: `object="list"`, `data=[a,b]`,
`has_more=true`, `next_page="https://x/?page=2"`, no total fields. -/
def pList5 : Payload :=
  Payload.mk (some "list") [atomP 1, atomP 2] (some true)
    (some "https://x/?page=2") none none none [] none none

/-- The `ScrypyfallList` produced from `pList5`. -/
def lExp5 : SList :=
  ⟨[atomP 1, atomP 2], [], true, none, some 2, some "https://x/?page=2"⟩

/-- A list payload with no data, `has_more=false`. -/
def pEmptyList : Payload :=
  Payload.mk (some "list") [] (some false) none none none none [] none none

/-- A payload with an unrecognized discriminator (classified `Single`). -/
def pSingleX : Payload :=
  Payload.mk (some "card") [] none none none none none [] none none

/-- A payload with no `object` key at all. -/
def pNoObj : Payload :=
  Payload.mk none [] none none none none none [] none none

/-- A list payload claiming `has_more=true` with no `next_page` URL. -/
def pStuckList : Payload :=
  Payload.mk (some "list") [atomP 1] (some true) none none none none [] none none

/-- A list payload with `has_more=true`, no `next_page`, `total_cards=5`. -/
def pTotal5 : Payload :=
  Payload.mk (some "list") [atomP 1] (some true) none (some 5) none none [] none none

/-- A collection payload with two elements and no `total_values` key. -/
def pColl0 : Payload :=
  Payload.mk (some "collection") [atomP 1, atomP 2] none none none none none [] none none

/-- A collection payload with one element and `total_values=9`. -/
def pColl9 : Payload :=
  Payload.mk (some "collection") [atomP 3] none none none none (some 9) [] none none

/-- A one-page list payload: one element, `has_more=false`. -/
def pDoneList : Payload :=
  Payload.mk (some "list") [atomP 7] (some false) none none none none [] none none

/-- The error body of the spec scenario: status 422 with
`{"object":"error","details":"not found"}`. -/
def pErr422 : Payload :=
  Payload.mk (some "error") [] none none none none none [] none (some "not found")

/-- State after fetching `pEmptyList` first: exhausted with empty data. -/
def sExhaustedEmpty : IterState := IterState.mk [] false (some 0) none 0

/-- State after `sExhaustedEmpty` wrongly refetches and merges `pSingleX`. -/
def sAfterSingle : IterState := IterState.mk [pSingleX] false (some 0) none 0

/-- State after fetching `pStuckList` first. -/
def sStuck : IterState := IterState.mk [atomP 1] true none none 0

/-- State after fetching `pList5` first. -/
def sPartial : IterState :=
  IterState.mk [atomP 1, atomP 2] true none (some "https://x/?page=2") 0

/-- State after `sPartial` merges the collection payload `pColl9`:
`has_more` is still `true`. -/
def sPartialColl : IterState :=
  IterState.mk [atomP 1, atomP 2, atomP 3] true (some 9) (some "https://x/?page=2") 0

/-- State after fetching `pTotal5` first: `total=5` known, one element,
`has_more=true`, no cursor. -/
def sStuck5 : IterState := IterState.mk [atomP 1] true (some 5) none 0

/-- State after fetching `pColl0` first: `total=0` yet two elements. -/
def sBadTotal : IterState := IterState.mk [atomP 1, atomP 2] false (some 0) none 0

/-- State after an eager load over the single page `pDoneList`. -/
def sLoaded : IterState := IterState.mk [atomP 7] false (some 1) none 0

/-- A two-element exhausted state for negative-index access. -/
def sTwo : IterState := IterState.mk [atomP 1, atomP 2] false (some 2) none 0


/-- A catalog payload with one element, `total_values=1` and a `uri`. -/
def pCat1 : Payload :=
  Payload.mk (some "catalog") [atomP 4] none none none none (some 1) [] (some "u") none

/-- The merge rule of the amended claim C3, written from its words: a List
envelope appends `data` and replaces `hasMore`, the cursor and `total`; a
Collection envelope appends `data` and sets `total`, leaving `hasMore` and
the cursor untouched; a Catalog envelope replaces `data` and sets `total`,
leaving `hasMore` and the cursor untouched; a Single envelope replaces the
accumulated contents with the one value and forces `hasMore` to false.
When `total` is still unknown while `hasMore` is false, `total` becomes
the length of the accumulated data. -/
def mergeAmendedSpec (s : IterState) (e : Envelope) : IterState :=
  let merged : IterState :=
    match e with
    | .list l =>
      IterState.mk (s.data ++ l.data) l.has_more l.total l.next_page_url s.iter_index
    | .collection c =>
      IterState.mk (s.data ++ c.data) s.has_more (some c.total_values)
        s.next_page_url s.iter_index
    | .catalog c =>
      IterState.mk c.data s.has_more (some c.total_values)
        s.next_page_url s.iter_index
    | .single p =>
      IterState.mk [p] false s.total s.next_page_url s.iter_index
  if merged.total = none ∧ merged.has_more = false then
    IterState.mk merged.data merged.has_more (some merged.data.length)
      merged.next_page_url merged.iter_index
  else merged

/-- The side condition under which one merge preserves the length/total
invariant of the amended claim C8: the envelope must declare a total at
least as large as the accumulated data it produces (and a Single merge
must not meet a known previous total below 1). -/
def envTotalOk (s : IterState) : Envelope → Prop
  | .list l => ∀ t, l.total = some t → s.data.length + l.data.length ≤ t
  | .collection c => s.data.length + c.data.length ≤ c.total_values
  | .catalog c => c.data.length ≤ c.total_values
  | .single _ => s.total = none ∨ ∃ t, s.total = some t ∧ 1 ≤ t

/-- The early return of `_get_data_page`: with no cursor held and at least
one accumulated element, no request happens and the state is untouched. -/
theorem get_data_page_skip (s : IterState) (net : List Resp)
    (hcur : s.next_page_url = none) (hdat : 0 < s.data.length) :
    get_data_page s net = Except.ok (s, net, false) := by
  unfold get_data_page
  rw [if_pos ⟨hcur, hdat⟩]

/-- A `done` exit of the `while self.has_more` loop of `load` can only
happen with `has_more` false. -/
theorem loadLoop_done_not_more :
    ∀ (fuel : Nat) (s : IterState) (net : List Resp) (s2 : IterState)
      (net2 : List Resp),
      loadLoop fuel s net = LoadOut.done s2 net2 → s2.has_more = false
  | 0, s, net, s2, net2 => by
    intro h
    simp only [loadLoop] at h
    split at h
    · exact absurd h (by simp)
    · cases h
      simpa using Bool.not_eq_true _ |>.mp (by assumption)
  | fuel + 1, s, net, s2, net2 => by
    intro h
    simp only [loadLoop] at h
    split at h
    · split at h
      · exact absurd h (by simp)
      · exact loadLoop_done_not_more fuel _ _ s2 net2 h
    · cases h
      simpa using Bool.not_eq_true _ |>.mp (by assumption)


/-- Claim C1, counterexample: an exhausted state whose accumulated data is
empty is reachable (first response: an empty list page with
`has_more=false`), and calling the fetch operation on it performs a
network request (flag `true`, oracle consumed) and changes the
accumulated data — the claimed idempotent exhaustion fails there. -/
theorem c1_counterexample :
    get_data_page initState [Resp.json 200 pEmptyList, Resp.json 200 pSingleX] =
      Except.ok (sExhaustedEmpty, [Resp.json 200 pSingleX], true) ∧
    sExhaustedEmpty.has_more = false ∧
    get_data_page sExhaustedEmpty [Resp.json 200 pSingleX] =
      Except.ok (sAfterSingle, [], true) ∧
    sAfterSingle.data.length ≠ sExhaustedEmpty.data.length :=
  ⟨by rfl, by rfl, by rfl, by decide⟩

/-- Claim C1, amended: once `hasMore` is false, *provided at least one
element has been accumulated and no next-page cursor is held*, calling
the fetch-next-page operation performs no network request and leaves the
whole state (hence `accumulatedData`, `total` and `hasMore`) unchanged. -/
theorem c1_amended (s : IterState) (net : List Resp)
    (hmore : s.has_more = false) (hcur : s.next_page_url = none)
    (hdat : 0 < s.data.length) :
    get_data_page s net = Except.ok (s, net, false) :=
  get_data_page_skip s net hcur hdat

/-- Witness for C1: a concrete exhausted two-element state, with a response
still available in the oracle, is left untouched without a request. -/
theorem c1_witness :
    get_data_page sTwo [Resp.json 200 pSingleX] =
      Except.ok (sTwo, [Resp.json 200 pSingleX], false) :=
  c1_amended sTwo [Resp.json 200 pSingleX] (by rfl) (by rfl) (by decide)

/-- The `while self.has_more` loop spins forever on `sStuck` (fetched data
but `has_more=true` with no cursor): every iteration early-returns from
`_get_data_page` without touching the state. -/
theorem loadLoop_stuck_aux :
    ∀ fuel : Nat, loadLoop fuel sStuck [] = LoadOut.fuelOut sStuck []
  | 0 => rfl
  | fuel + 1 => by
    have h : loadLoop (fuel + 1) sStuck [] = loadLoop fuel sStuck [] := by rfl
    rw [h, loadLoop_stuck_aux fuel]

/-- Claim C2, failing input: a fresh resource whose first (and only)
response is a list page with `has_more=true` and no `next_page` URL.
`load` never returns: for every amount of fuel the `while self.has_more`
loop is still running, in the unchanged state `sStuck`, without consuming
any further response — the loop body is a no-op that never clears
`has_more`. -/
theorem c2_load_nonterminating (fuel : Nat) :
    load (fuel + 1) initState [Resp.json 200 pStuckList] =
      LoadOut.fuelOut sStuck [] := by
  have h : load (fuel + 1) initState [Resp.json 200 pStuckList] =
      loadLoop fuel sStuck [] := by rfl
  rw [h, loadLoop_stuck_aux fuel]

/-- Claim C9: whenever an eager construction (process-wide lazy loading
disabled, as in `CardsSearch.__init__`) returns control to the caller,
the resulting resource has `hasMore` false, i.e. it is fully loaded. -/
theorem c9_eager_fully_loaded (fuel : Nat) (net : List Resp)
    (s2 : IterState) (net2 : List Resp)
    (h : cardsSearchInit false fuel net = LoadOut.done s2 net2) :
    s2.has_more = false :=
  loadLoop_done_not_more fuel (IterState.mk [] true none none 0) net s2 net2 h

/-- Witness for C9: an eager construction over a one-page response
sequence returns, and the returned state indeed has `hasMore` false. -/
theorem c9_witness : sLoaded.has_more = false :=
  c9_eager_fully_loaded 3 [Resp.json 200 pDoneList] sLoaded [] (by rfl)


/-- Claim C5: classifying the synthetic payload `object="list"`,
`data=[a,b]`, `has_more=true`, `next_page="https://x/?page=2"` (no
`total`/`total_cards`) yields a list with `total` unknown, `hasMore`
true, page cursor `2` and the given URL; and in general a parsed list
takes `total` from `total_cards`, else `total`, else leaves it unknown,
and defaults `hasMore` to false when absent. -/
theorem c5_envelope_roundtrip :
    ScrypyfallList.init pList5 = Except.ok lExp5 ∧
    lExp5.total = none ∧ lExp5.has_more = true ∧
    lExp5.next_page = some 2 ∧
    lExp5.next_page_url = some "https://x/?page=2" ∧
    (∀ (p : Payload) (l : SList), ScrypyfallList.init p = Except.ok l →
      l.total = (p.total_cards <|> p.total) ∧
      l.has_more = (p.has_more).getD false) := by
  refine ⟨by rfl, by rfl, by rfl, by rfl, by rfl, ?_⟩
  intro p l h
  simp only [ScrypyfallList.init] at h
  split at h
  · split at h
    · split at h
      · exact absurd h (by simp)
      · split at h
        · exact absurd h (by simp)
        · split at h
          · exact absurd h (by simp)
          · simp only [Except.ok.injEq] at h
            subst h
            exact ⟨rfl, rfl⟩
    · simp only [Except.ok.injEq] at h
      subst h
      exact ⟨rfl, rfl⟩
  · exact absurd h (by simp)

/-- Witness for C5: the general total/has-more rule applied to the
round-trip payload itself. -/
theorem c5_witness :
    lExp5.total = (pList5.total_cards <|> pList5.total) ∧
    lExp5.has_more = (pList5.has_more).getD false :=
  c5_envelope_roundtrip.2.2.2.2.2 pList5 lExp5 c5_envelope_roundtrip.1

/-- Claim C6, counterexample: a success response whose payload has no
`object` key does not classify as `Single` — `jresp['object']` raises a
`KeyError` instead. -/
theorem c6_counterexample :
    make_request (Resp.json 200 pNoObj) = Except.error Err.keyError ∧
    make_request (Resp.json 200 pNoObj) ≠ Except.ok (Envelope.single pNoObj) := by
  have h0 : make_request (Resp.json 200 pNoObj) = Except.error Err.keyError := by rfl
  refine ⟨h0, fun h => ?_⟩
  rw [h0] at h
  exact Except.noConfusion h

/-- Claim C6, amended: on a success response the discriminator maps
`"list"`/`"collection"`/`"catalog"` to the corresponding shapes, and any
other *present* value yields the `Single` shape carrying the whole
payload; when the discriminator key is absent the request fails with a
`KeyError` rather than yielding `Single`. -/
theorem c6_amended (p : Payload) :
    (p.object = some "list" →
      make_request (Resp.json 200 p) = (ScrypyfallList.init p).map Envelope.list) ∧
    (p.object = some "collection" →
      make_request (Resp.json 200 p) =
        (ScrypyfallCollection.init p).map Envelope.collection) ∧
    (p.object = some "catalog" →
      make_request (Resp.json 200 p) =
        (ScrypyfallCatalog.init p).map Envelope.catalog) ∧
    (∀ o : String, p.object = some o → o ≠ "list" → o ≠ "collection" →
      o ≠ "catalog" →
      make_request (Resp.json 200 p) = Except.ok (Envelope.single p)) ∧
    (p.object = none → make_request (Resp.json 200 p) = Except.error Err.keyError) := by
  refine ⟨fun h => ?_, fun h => ?_, fun h => ?_, fun o h h1 h2 h3 => ?_, fun h => ?_⟩
  all_goals simp [make_request, h]
  rw [if_neg h1, if_neg h2, if_neg h3]

/-- Witness for C6: each recognized discriminator, an unrecognized one,
and the missing-discriminator case, at concrete payloads. -/
theorem c6_witness :
    make_request (Resp.json 200 pList5) = (ScrypyfallList.init pList5).map Envelope.list ∧
    make_request (Resp.json 200 pColl9) =
      (ScrypyfallCollection.init pColl9).map Envelope.collection ∧
    make_request (Resp.json 200 pCat1) =
      (ScrypyfallCatalog.init pCat1).map Envelope.catalog ∧
    make_request (Resp.json 200 pSingleX) = Except.ok (Envelope.single pSingleX) ∧
    make_request (Resp.json 200 pNoObj) = Except.error Err.keyError :=
  ⟨(c6_amended pList5).1 rfl,
   (c6_amended pColl9).2.1 rfl,
   (c6_amended pCat1).2.2.1 rfl,
   (c6_amended pSingleX).2.2.2.1 "card" rfl (by decide) (by decide) (by decide),
   (c6_amended pNoObj).2.2.2.2 rfl⟩

/-- Claim C7: a response that decodes as JSON but carries a non-200 status
raises `ScrypyfallException` whose attached payload is the decoded error
body verbatim (with `details` taken from the body when present). -/
theorem c7_api_error (status : Nat) (p : Payload) (h : status ≠ 200) :
    make_request (Resp.json status p) =
      Except.error (Err.apiError p ((p.details).getD "Error in calling Scryfall API")) := by
  simp only [make_request]
  rw [if_pos h]

/-- Witness for C7: status 422 with body
`{"object":"error","details":"not found"}` raises an error carrying
exactly that body and its `details` string. -/
theorem c7_witness :
    make_request (Resp.json 422 pErr422) =
      Except.error (Err.apiError pErr422 "not found") :=
  c7_api_error 422 pErr422 (by decide)


/-- The assignment block of `_get_data_page` coincides with the amended
merge description. -/
theorem mergeEnvelope_eq_amendedSpec (s : IterState) (e : Envelope) :
    mergeEnvelope s e = mergeAmendedSpec s e := by
  cases e <;> rfl

/-- Claim C3, counterexample: from the reachable partial state `sPartial`
(`hasMore=true`, cursor held), merging a Collection envelope leaves
`hasMore` true — it is not forced to false as the claim states. -/
theorem c3_counterexample :
    get_data_page sPartial [Resp.json 200 pColl9] =
      Except.ok (sPartialColl, [], true) ∧
    sPartialColl.has_more = true :=
  ⟨by rfl, by rfl⟩

/-- Claim C3, amended: a fetch that performs a request merges the envelope
shape-directedly — List: append `data`, replace `hasMore`/cursor/`total`;
Collection: append `data` and set `total`, leaving `hasMore` and the
cursor unchanged; Catalog: replace `data` and set `total`, leaving
`hasMore` and the cursor unchanged; Single: replace the contents with the
one value and force `hasMore` false — and then closes `total` to the
accumulated length when still unknown with `hasMore` false. -/
theorem c3_amended (s : IterState) (r : Resp) (rest : List Resp) (env : Envelope)
    (hguard : ¬(s.next_page_url = none ∧ 0 < s.data.length))
    (hreq : make_request r = Except.ok env) :
    get_data_page s (r :: rest) = Except.ok (mergeAmendedSpec s env, rest, true) := by
  unfold get_data_page
  rw [if_neg hguard]
  simp only [hreq, ← mergeEnvelope_eq_amendedSpec]

/-- Witness for C3: the collection merge of the counterexample scenario,
expressed through the amended merge description. -/
theorem c3_witness :
    get_data_page sPartial [Resp.json 200 pColl9] =
      Except.ok (mergeAmendedSpec sPartial (Envelope.collection ⟨[atomP 3], 9⟩), [], true) :=
  c3_amended sPartial (Resp.json 200 pColl9) [] (Envelope.collection ⟨[atomP 3], 9⟩)
    (by simp [sPartial]) (by rfl)

/-- Claim C8, counterexample: one fetch from the initial state, merging a
Collection payload with two elements and no `total_values` key, reaches a
state with `total = 0` but two accumulated elements — the claimed
invariant `len(accumulatedData) <= total` is not preserved. -/
theorem c8_counterexample :
    get_data_page initState [Resp.json 200 pColl0] =
      Except.ok (sBadTotal, [], true) ∧
    sBadTotal.total = some 0 ∧ sBadTotal.data.length = 2 :=
  ⟨by rfl, by rfl, by rfl⟩

/-- Claim C8, amended: a merge preserves `len(accumulatedData) <= total`
only under the side condition `envTotalOk`: the envelope's declared total
(`total` for List, `total_values` for Collection/Catalog) must be at
least the accumulated length it produces, and a Single merge must not
meet a known previous total below 1; the total closed from exhaustion is
always consistent. -/
theorem c8_amended (s : IterState) (e : Envelope) (t : Nat)
    (hok : envTotalOk s e) (ht : (mergeEnvelope s e).total = some t) :
    (mergeEnvelope s e).data.length ≤ t := by
  cases e with
  | list l =>
    simp only [mergeEnvelope, envTotalOk] at hok ht ⊢
    by_cases hc : l.total = none ∧ l.has_more = false
    · rw [if_pos hc] at ht ⊢
      simp only [Option.some.injEq] at ht
      simp [ht]
    · rw [if_neg hc] at ht ⊢
      simpa [List.length_append] using hok t ht
  | collection c =>
    simp only [mergeEnvelope, envTotalOk] at hok ht ⊢
    rw [if_neg (by simp : ¬(some c.total_values = none ∧ s.has_more = false))] at ht ⊢
    simp only [Option.some.injEq] at ht
    subst ht
    simpa [List.length_append] using hok
  | catalog c =>
    simp only [mergeEnvelope, envTotalOk] at hok ht ⊢
    rw [if_neg (by simp : ¬(some c.total_values = none ∧ s.has_more = false))] at ht ⊢
    simp only [Option.some.injEq] at ht
    subst ht
    exact hok
  | single p =>
    simp only [mergeEnvelope, envTotalOk] at hok ht ⊢
    by_cases hs : s.total = none
    · simp [hs] at ht ⊢
      omega
    · simp [hs] at ht ⊢
      rcases hok with h | ⟨t2, ht2, h1⟩
      · exact absurd h hs
      · rw [ht] at ht2
        simp only [Option.some.injEq] at ht2
        omega
  
/-- Witness for C8: a collection merge whose declared total (9) bounds the
resulting three accumulated elements preserves the invariant. -/
theorem c8_witness :
    (mergeEnvelope sPartial (Envelope.collection ⟨[atomP 3], 9⟩)).data.length ≤ 9 :=
  c8_amended sPartial (Envelope.collection ⟨[atomP 3], 9⟩) 9
    (by unfold envTotalOk; decide) (by rfl)

/-- Claim C10: with non-empty accumulated data, an integer key `i` with
`-len <= i <= -1` skips the fetch-ahead branch (no request, state and
oracle unchanged) and returns `accumulatedData[len + i]`. -/
theorem c10_negative_index (fuel : Nat) (s : IterState) (net : List Resp)
    (i : Int) (v : Payload)
    (hlo : -(s.data.length : Int) ≤ i) (hhi : i ≤ -1)
    (hv : s.data.get? ((s.data.length : Int) + i).toNat = some v) :
    getitem fuel i s net = GetOut.ok v s net := by
  have hneg : ¬(0 ≤ i) := by omega
  have hlen : ¬((s.data.length : Int) ≤ i) := by omega
  have hcond : fetchCond s i = false := by
    simp [fetchCond, hlen]
  have hidx : s.data.length - (-i).toNat = ((s.data.length : Int) + i).toNat := by
    omega
  unfold getitem
  rw [hcond]
  simp only [Bool.false_eq_true, if_false]
  unfold pyGet
  rw [if_neg hneg, if_pos (by omega : (-i).toNat ≤ s.data.length), hidx, hv]

/-- Witness for C10: key `-1` on a two-element exhausted state returns the
last element without fetching. -/
theorem c10_witness : getitem 5 (-1) sTwo [] = GetOut.ok (atomP 2) sTwo [] :=
  c10_negative_index 5 sTwo [] (-1) (atomP 2) (by decide) (by decide) (by rfl)


/-- The `while key >= len(self.data)` loop of `__getitem__` makes no
progress when no cursor is held while data is non-empty: every iteration
early-returns from `_get_data_page`, so the loop runs forever. -/
theorem fetchLoop_stuck (key : Int) (s : IterState) (net : List Resp)
    (hcur : s.next_page_url = none) (hdat : 0 < s.data.length)
    (hkey : (s.data.length : Int) ≤ key) :
    ∀ fuel : Nat, fetchLoop fuel key s net = LoopOut.fuelOut s net
  | 0 => by
    unfold fetchLoop
    rw [if_pos hkey]
  | fuel + 1 => by
    unfold fetchLoop
    rw [if_pos hkey, get_data_page_skip s net hcur hdat]
    exact fetchLoop_stuck key s net hcur hdat hkey fuel

/-- Iteration inside the accumulated range: `k + 1` calls of `__next__`
yield `data[iter_index + k]` and only advance the internal index. -/
theorem iterN_in_range (k : Nat) :
    ∀ (s : IterState) (net : List Resp),
      s.iter_index + k < s.data.length →
      iterN k s net = Except.ok (s.data.get? (s.iter_index + k),
        { s with iter_index := s.iter_index + k + 1 }, net) := by
  induction k with
  | zero =>
    intro s net h
    simp only [Nat.add_zero] at h ⊢
    unfold iterN nextf
    rw [if_pos h]
  | succ k ih =>
    intro s net h
    have h0 : s.iter_index < s.data.length := by omega
    have hnext : nextf s net = Except.ok (s.data.get? s.iter_index,
        { s with iter_index := s.iter_index + 1 }, net) := by
      unfold nextf
      rw [if_pos h0]
    have hstep : iterN (k + 1) s net =
        iterN k { s with iter_index := s.iter_index + 1 } net := by
      show (match nextf s net with
        | Except.error e => Except.error e
        | Except.ok (_, s2, net2) => iterN k s2 net2) =
        iterN k { s with iter_index := s.iter_index + 1 } net
      rw [hnext]
    have hlt : ({ s with iter_index := s.iter_index + 1 } : IterState).iter_index + k <
        ({ s with iter_index := s.iter_index + 1 } : IterState).data.length := by
      show s.iter_index + 1 + k < s.data.length
      omega
    rw [hstep, ih _ net hlt]
    have e1 : s.iter_index + 1 + k = s.iter_index + (k + 1) := by omega
    dsimp only
    rw [e1]

/-- Claim C4, counterexample: after one fetch of a list page with
`has_more=true`, `total_cards=5` and no `next_page` URL, the state
`sStuck5` has `total=5` known and one element; `at(3)` (with
`0 <= 3 < total`) enters the fetch loop, which makes no progress: after
20 iterations it is still running with the state unchanged, so `at(3)`
does not return the iterated element — "never fails" is refuted (the
amended theorem shows the loop is still running after any number of
iterations). -/
theorem c4_counterexample :
    get_data_page initState [Resp.json 200 pTotal5] =
      Except.ok (sStuck5, [], true) ∧
    sStuck5.total = some 5 ∧
    getitem 20 3 sStuck5 [] = GetOut.fuelOut sStuck5 [] :=
  ⟨by rfl, by rfl, by rfl⟩

/-- Claim C4, amended: (1) when `i` is within the accumulated data,
`at(i)` returns `accumulatedData[i]` directly, with no request and no
state change, and iterating to position `i` yields the same element;
(2) when `i` is beyond the accumulated data with `hasMore` true, `total`
known and `i < total`, but no cursor is held while data is non-empty,
the fetch loop makes no progress and `at(i)` never returns, for any
amount of fuel; (3) when `i` is beyond the accumulated data and
`hasMore` is false, `at(i)` fails with the index-out-of-range error. -/
theorem c4_amended :
    (∀ (fuel : Nat) (s : IterState) (net : List Resp) (i : Nat) (v : Payload),
        s.data.get? i = some v →
        getitem fuel (i : Int) s net = GetOut.ok v s net ∧
        iterGet i s net =
          Except.ok (some v, { s with iter_index := i + 1 }, net)) ∧
    (∀ (fuel : Nat) (s : IterState) (net : List Resp) (key : Int) (t : Nat),
        s.next_page_url = none → 0 < s.data.length →
        (s.data.length : Int) ≤ key → s.has_more = true →
        s.total = some t → key < (t : Int) →
        getitem fuel key s net = GetOut.fuelOut s net) ∧
    (∀ (fuel : Nat) (s : IterState) (net : List Resp) (key : Int),
        (s.data.length : Int) ≤ key → s.has_more = false →
        getitem fuel key s net = GetOut.idxError s net) := by
  refine ⟨?_, ?_, ?_⟩
  · intro fuel s net i v hv
    have hi : i < s.data.length := by
      rcases List.get?_eq_some.mp hv with ⟨h, -⟩
      exact h
    have hlen : ¬((s.data.length : Int) ≤ (i : Int)) := by
      exact_mod_cast Nat.not_le.mpr hi
    have hcond : fetchCond s (i : Int) = false := by
      simp [fetchCond, hlen]
    constructor
    · unfold getitem
      rw [hcond]
      simp only [Bool.false_eq_true, if_false]
      unfold pyGet
      rw [if_pos (by omega : (0 : Int) ≤ (i : Int))]
      simp only [Int.toNat_natCast]
      rw [hv]
    · unfold iterGet
      have hz : ({ s with iter_index := 0 } : IterState).iter_index + i <
          ({ s with iter_index := 0 } : IterState).data.length := by
        show 0 + i < s.data.length
        omega
      rw [iterN_in_range i _ net hz]
      dsimp only
      rw [Nat.zero_add, hv]
  · intro fuel s net key t hcur hdat hkey hmore htot hlt
    have hcond : fetchCond s key = true := by
      simp [fetchCond, hkey, hmore, htot, hlt]
    unfold getitem
    rw [if_pos hcond, fetchLoop_stuck key s net hcur hdat hkey fuel]
  · intro fuel s net key hkey hmore
    have hcond : fetchCond s key = false := by
      simp [fetchCond, hmore]
    have h0 : (0 : Int) ≤ key := by omega
    unfold getitem
    rw [hcond]
    simp only [Bool.false_eq_true, if_false]
    unfold pyGet
    rw [if_pos h0, List.get?_eq_none.mpr (by omega : s.data.length ≤ key.toNat)]

/-- Witness for C4: each part at a concrete input — in-range access on a
two-element state agrees with iteration; the stuck state never returns
at key 3 even with fuel 7; an exhausted state fails out of range with the
index error. -/
theorem c4_witness :
    (getitem 5 (1 : Int) sTwo [] = GetOut.ok (atomP 2) sTwo [] ∧
      iterGet 1 sTwo [] =
        Except.ok (some (atomP 2), { sTwo with iter_index := 2 }, [])) ∧
    getitem 7 3 sStuck5 [] = GetOut.fuelOut sStuck5 [] ∧
    getitem 5 9 sTwo [] = GetOut.idxError sTwo [] :=
  ⟨c4_amended.1 5 sTwo [] 1 (atomP 2) (by rfl),
   c4_amended.2.1 7 sStuck5 [] 3 5 (by rfl) (by decide) (by decide) (by rfl)
     (by rfl) (by decide),
   c4_amended.2.2 5 sTwo [] 9 (by decide) (by rfl)⟩

end Scrypyfall
